import Mathlib

/-!
Shallow embedding of the graph-node layer of the cudnn-frontend repository
(`include/cudnn_frontend/cudnn_frontend_node_batchnorm.h`,
`cudnn_frontend_node_dbn.h`, `cudnn_frontend_node_conv_dgrad.h`,
`cudnn_frontend_node_rng.h`) together with proofs of the specified
properties of shape/stride inference, validation, uid assignment and
operation lowering.

Modelling conventions:
* `std::vector<int64_t>` shapes and strides become `List Int`.
* A `std::shared_ptr<Tensor_attributes>` that the code may test for null
  becomes `Option Tensor_attributes`; a pointer the code dereferences
  unconditionally and that is mandatory for the node kind stays a plain
  `Tensor_attributes`.
* A C++ computation that dereferences a null pointer, calls `.value()` on an
  empty `std::optional`, or looks up a missing key with `std::map::at` does
  not return normally; such stages are embedded as `Option`-returning
  functions where `none` stands for that abnormal termination.
* Element data types, tensor names and the logging statements play no role in
  any proved property and are not modelled; `fill_from_context` only fills
  data types and is likewise omitted.
-/

/-- `error_code_t` values used by the four node implementations. -/
inductive error_code_t where
  | OK
  | ATTRIBUTE_NOT_SET
deriving DecidableEq, Repr

/-- `error_t`: the status-code-plus-message pair returned by every lifecycle
stage. -/
structure error_t where
  code : error_code_t
  msg : String
deriving DecidableEq, Repr

/-- The success value `{error_code_t::OK, ""}`. -/
def ok_error_t : error_t := { code := error_code_t.OK, msg := "" }

/-- Shallow embedding of `Tensor_attributes`: the shape (`dim`), the `stride`,
the virtuality flag and the assigned identifier `uid`.  The extra field `id`
stands for the object identity of the `shared_ptr` target, so that sharing of
one descriptor between several roles or nodes can be talked about. -/
structure Tensor_attributes where
  id : Nat := 0
  dim : List Int := []
  stride : List Int := []
  is_virtual : Bool := false
  uid : Nat := 0
deriving DecidableEq, Repr

/-- Modelled from the spec: `detail::generate_stride` (declared outside the
four node headers) generates a packed row-major stride as a pure function of
the finalized shape. -/
def generate_stride (dim : List Int) : List Int :=
  (List.range dim.length).map fun i => (dim.drop (i + 1)).foldl (fun a b => a * b) 1

/-- The per-channel inference lambda `infer_per_channel_tensors` that appears
verbatim in `BatchNormNode::infer_properties_node` and
`DBNNode::infer_properties_node`: if the shape is empty it is resized to the
primary input's rank filled with `1`, then entry `1` is overwritten with the
primary input's entry `1`; if the stride is empty it is generated from the
(now final) shape. -/
def infer_per_channel_tensors (x_tensor_dim : List Int) (T : Tensor_attributes) :
    Tensor_attributes :=
  let T := if T.dim.isEmpty then
      { T with dim := (List.replicate x_tensor_dim.length (1 : Int)).set 1 (x_tensor_dim.getD 1 0) }
    else T
  if T.stride.isEmpty then { T with stride := generate_stride T.dim } else T

/-- The scalar inference lambda `infer_scalar_tensors` of
`BatchNormNode::infer_properties_node`: an empty shape becomes all-ones of the
primary input's rank. -/
def infer_scalar_tensors (x_tensor_dim : List Int) (T : Tensor_attributes) :
    Tensor_attributes :=
  let T := if T.dim.isEmpty then
      { T with dim := List.replicate x_tensor_dim.length (1 : Int) }
    else T
  if T.stride.isEmpty then { T with stride := generate_stride T.dim } else T

/-- The copy-from-X inference written inline for Y in
`BatchNormNode::infer_properties_node` and for DY and DX in
`DBNNode::infer_properties_node`: an unset shape is replaced by X's whole
shape (`T->set_dim(x_tensor_dim)`), an empty stride generated from the final
shape. -/
def infer_copy_from_x (x_tensor_dim : List Int) (T : Tensor_attributes) :
    Tensor_attributes :=
  let T := if T.dim.isEmpty then { T with dim := x_tensor_dim } else T
  if T.stride.isEmpty then { T with stride := generate_stride T.dim } else T

/-! ## Convolution data-gradient (Dgrad) node -/

/-- Input roles of `Conv_dgrad_attributes`. -/
structure Conv_dgrad_inputs where
  W : Tensor_attributes
  DY : Tensor_attributes
deriving DecidableEq, Repr

/-- Output role of `Conv_dgrad_attributes`. -/
structure Conv_dgrad_outputs where
  DX : Tensor_attributes
deriving DecidableEq, Repr

/-- `Conv_dgrad_attributes`: tensor roles plus the per-spatial-axis
convolution parameters returned by `get_padding`, `get_stride`,
`get_dilation`. -/
structure Conv_dgrad_attributes where
  padding : List Int := []
  stride : List Int := []
  dilation : List Int := []
  inputs : Conv_dgrad_inputs
  outputs : Conv_dgrad_outputs
deriving DecidableEq, Repr

/-- `DgradNode::infer_properties_node`: if DX's shape is empty it is resized
to W's rank and filled with `DX[0] = DY[0]`, `DX[1] = W[1]` and, for each
spatial axis `d ≥ 2`,
`DX[d] = (DY[d]-1)*stride[d-2] - 2*padding[d-2] + 1 + dilation[d-2]*(W[d]-1)`;
if DX's stride is empty it is generated from DX's final shape.  (For W rank
`< 2` the C++ indexes out of bounds, which is undefined; the theorems below
assume rank `≥ 2`.) -/
def DgradNode.infer_properties_node (o : Conv_dgrad_attributes) : Conv_dgrad_attributes :=
  let w_tensor_dim := o.inputs.W.dim
  let dy_tensor_dim := o.inputs.DY.dim
  let DX := o.outputs.DX
  let DX :=
    if DX.dim.isEmpty then
      { DX with dim := (List.range w_tensor_dim.length).map fun d =>
          if d = 0 then dy_tensor_dim.getD 0 0
          else if d = 1 then w_tensor_dim.getD 1 0
          else (dy_tensor_dim.getD d 0 - 1) * o.stride.getD (d - 2) 0 -
                2 * o.padding.getD (d - 2) 0 + 1 +
                o.dilation.getD (d - 2) 0 * (w_tensor_dim.getD d 0 - 1) }
    else DX
  let DX := if DX.stride.isEmpty then { DX with stride := generate_stride DX.dim } else DX
  { o with outputs := { DX := DX } }

/-- `DgradNode::assign_uids_node` touches DY, W, DX in this order; this is the
list of descriptor identities it calls `set_uid` on. -/
def DgradNode.assign_uids_order (o : Conv_dgrad_attributes) : List Nat :=
  [o.inputs.DY.id, o.inputs.W.id, o.outputs.DX.id]

/-! ## Helper lemmas on lists -/

theorem getD_map_range (n i : Nat) (f : Nat → Int) (h : i < n) :
    ((List.range n).map f).getD i 0 = f i := by
  rw [List.getD_eq_getElem?_getD]
  simp [List.getElem?_map, List.getElem?_range, h]

theorem getD_replicate_set (a b : Int) (i j n : Nat) (hj : j < n) :
    ((List.replicate n a).set i b).getD j 0 = if i = j then b else a := by
  rcases eq_or_ne i j with rfl | hne
  · rw [List.getD_eq_getElem?_getD, List.getElem?_set_self]
    · simp
    · simpa using hj
  · rw [List.getD_eq_getElem?_getD, List.getElem?_set_ne hne]
    simp [List.getElem?_replicate, hj, hne]

/-- The shape `DgradNode::infer_properties_node` writes into an unset DX. -/
theorem DgradNode.infer_dx_dim (o : Conv_dgrad_attributes) (h : o.outputs.DX.dim = []) :
    (DgradNode.infer_properties_node o).outputs.DX.dim =
      (List.range o.inputs.W.dim.length).map fun d =>
        if d = 0 then o.inputs.DY.dim.getD 0 0
        else if d = 1 then o.inputs.W.dim.getD 1 0
        else (o.inputs.DY.dim.getD d 0 - 1) * o.stride.getD (d - 2) 0 -
              2 * o.padding.getD (d - 2) 0 + 1 +
              o.dilation.getD (d - 2) 0 * (o.inputs.W.dim.getD d 0 - 1) := by
  unfold DgradNode.infer_properties_node
  simp only [h, List.isEmpty_nil, if_true]
  split <;> rfl

/-- Claim C1:  For a Dgrad node whose DX shape is unset at
`infer_properties_node` time (and whose filter W has rank at least 2, as the
code indexes `W[1]`), the inferred DX shape has W's rank, copies the batch
dimension from DY and the input-channel dimension from W, and on every
spatial axis `d ≥ 2` equals
`(DY[d]-1)*stride[d-2] - 2*padding[d-2] + 1 + dilation[d-2]*(W[d]-1)`;
in particular for W = [K,C,3,3], DY = [N,K,P,Q], stride = [1,1],
padding = [0,0], dilation = [1,1] the inferred DX shape is
[N, C, P+2, Q+2]. -/
theorem C1_dgrad_dx_shape_inference :
    (∀ o : Conv_dgrad_attributes, o.outputs.DX.dim = [] →
      2 ≤ o.inputs.W.dim.length →
      (DgradNode.infer_properties_node o).outputs.DX.dim.length = o.inputs.W.dim.length ∧
      (DgradNode.infer_properties_node o).outputs.DX.dim.getD 0 0 = o.inputs.DY.dim.getD 0 0 ∧
      (DgradNode.infer_properties_node o).outputs.DX.dim.getD 1 0 = o.inputs.W.dim.getD 1 0 ∧
      (∀ d, 2 ≤ d → d < o.inputs.W.dim.length →
        (DgradNode.infer_properties_node o).outputs.DX.dim.getD d 0 =
          (o.inputs.DY.dim.getD d 0 - 1) * o.stride.getD (d - 2) 0 -
            2 * o.padding.getD (d - 2) 0 + 1 +
            o.dilation.getD (d - 2) 0 * (o.inputs.W.dim.getD d 0 - 1))) ∧
    (∀ K C N P Q : Int, ∀ o : Conv_dgrad_attributes,
      o.inputs.W.dim = [K, C, 3, 3] → o.inputs.DY.dim = [N, K, P, Q] →
      o.stride = [1, 1] → o.padding = [0, 0] → o.dilation = [1, 1] →
      o.outputs.DX.dim = [] →
      (DgradNode.infer_properties_node o).outputs.DX.dim = [N, C, P + 2, Q + 2]) := by
  constructor
  · intro o h hw
    rw [DgradNode.infer_dx_dim o h]
    refine ⟨by simp, ?_, ?_, ?_⟩
    · rw [getD_map_range _ _ _ (by omega)]
      norm_num
    · rw [getD_map_range _ _ _ (by omega)]
      norm_num
    · intro d hd2 hdn
      rw [getD_map_range _ _ _ hdn]
      have h0 : d ≠ 0 := by omega
      have h1 : d ≠ 1 := by omega
      simp [h0, h1]
  · intro K C N P Q o hW hDY hs hp hdil hDX
    rw [DgradNode.infer_dx_dim o hDX]
    rw [hW, hDY, hs, hp, hdil]
    norm_num [List.range_succ, List.getD]

/-- Concrete instantiation of `C1_dgrad_dx_shape_inference`: W = [64,32,3,3],
DY = [2,64,8,8], unit stride/dilation and zero padding infer
DX = [2,32,10,10]. -/
theorem C1_dgrad_dx_shape_inference_witness :
    (DgradNode.infer_properties_node
      { padding := [0, 0], stride := [1, 1], dilation := [1, 1],
        inputs := { W := { dim := [64, 32, 3, 3] }, DY := { dim := [2, 64, 8, 8] } },
        outputs := { DX := {} } }).outputs.DX.dim = [2, 32, 10, 10] := by
  have h := C1_dgrad_dx_shape_inference.2 64 32 2 8 8
    { padding := [0, 0], stride := [1, 1], dilation := [1, 1],
      inputs := { W := { dim := [64, 32, 3, 3] }, DY := { dim := [2, 64, 8, 8] } },
      outputs := { DX := {} } } rfl rfl rfl rfl rfl rfl
  norm_num at h
  exact h

/-! ## Batch-Normalization forward node -/

/-- `NormFwdPhase_t`. -/
inductive NormFwdPhase_t where
  | NOT_SET
  | TRAINING
  | INFERENCE
deriving DecidableEq, Repr

/-- Input roles of `Batchnorm_attributes`; all of them are dereferenced
unconditionally by the node's stages. -/
structure Batchnorm_inputs where
  X : Tensor_attributes
  SCALE : Tensor_attributes
  BIAS : Tensor_attributes
  PREV_RUNNING_MEAN : Tensor_attributes
  PREV_RUNNING_VAR : Tensor_attributes
  EPSILON : Tensor_attributes
  MOMENTUM : Tensor_attributes
deriving DecidableEq, Repr

/-- Output roles of `Batchnorm_attributes`. -/
structure Batchnorm_outputs where
  Y : Tensor_attributes
  MEAN : Tensor_attributes
  INV_VARIANCE : Tensor_attributes
  NEXT_RUNNING_MEAN : Tensor_attributes
  NEXT_RUNNING_VAR : Tensor_attributes
deriving DecidableEq, Repr

/-- `Batchnorm_attributes`. -/
structure Batchnorm_attributes where
  forward_phase : NormFwdPhase_t := NormFwdPhase_t.NOT_SET
  inputs : Batchnorm_inputs
  outputs : Batchnorm_outputs
deriving DecidableEq, Repr

/-- `BatchNormNode::validate_node`: fails with `ATTRIBUTE_NOT_SET` exactly
when the forward phase was never set; reads nothing else and (being a `const`
member returning only `error_t`) mutates nothing. -/
def BatchNormNode.validate_node (o : Batchnorm_attributes) : error_t :=
  if o.forward_phase = NormFwdPhase_t.NOT_SET then
    { code := error_code_t.ATTRIBUTE_NOT_SET,
      msg := "[cudnn_frontend] ERROR: Forward phase not set of batchnorm node." }
  else ok_error_t

/-- `BatchNormNode::infer_properties_node`: Y copies X's shape when unset;
the eight statistics/affine roles get per-channel inference, EPSILON and
MOMENTUM scalar inference; every empty stride is generated from the
finalized shape. -/
def BatchNormNode.infer_properties_node (o : Batchnorm_attributes) : Batchnorm_attributes :=
  let x_tensor_dim := o.inputs.X.dim
  { o with
    outputs := { o.outputs with
      Y := infer_copy_from_x x_tensor_dim o.outputs.Y
      MEAN := infer_per_channel_tensors x_tensor_dim o.outputs.MEAN
      INV_VARIANCE := infer_per_channel_tensors x_tensor_dim o.outputs.INV_VARIANCE
      NEXT_RUNNING_MEAN := infer_per_channel_tensors x_tensor_dim o.outputs.NEXT_RUNNING_MEAN
      NEXT_RUNNING_VAR := infer_per_channel_tensors x_tensor_dim o.outputs.NEXT_RUNNING_VAR }
    inputs := { o.inputs with
      PREV_RUNNING_MEAN := infer_per_channel_tensors x_tensor_dim o.inputs.PREV_RUNNING_MEAN
      PREV_RUNNING_VAR := infer_per_channel_tensors x_tensor_dim o.inputs.PREV_RUNNING_VAR
      SCALE := infer_per_channel_tensors x_tensor_dim o.inputs.SCALE
      BIAS := infer_per_channel_tensors x_tensor_dim o.inputs.BIAS
      EPSILON := infer_scalar_tensors x_tensor_dim o.inputs.EPSILON
      MOMENTUM := infer_scalar_tensors x_tensor_dim o.inputs.MOMENTUM } }

/-- `BatchNormNode::assign_uids_node` calls `set_uid` on the twelve roles in
this order; the list holds the descriptor identities in call order. -/
def BatchNormNode.assign_uids_order (o : Batchnorm_attributes) : List Nat :=
  [o.inputs.X.id, o.inputs.SCALE.id, o.inputs.BIAS.id,
   o.inputs.PREV_RUNNING_MEAN.id, o.inputs.PREV_RUNNING_VAR.id,
   o.inputs.EPSILON.id, o.inputs.MOMENTUM.id,
   o.outputs.Y.id, o.outputs.MEAN.id, o.outputs.INV_VARIANCE.id,
   o.outputs.NEXT_RUNNING_MEAN.id, o.outputs.NEXT_RUNNING_VAR.id]

/-! ## Batch-Normalization backward (DBN) node -/

/-- Input roles of `batchnorm_backward_attributes`.  MEAN, INV_VARIANCE and
EPSILON are the three roles `DBNNode::validate_node` tests for null, so they
are embedded as `Option`; X, DY and SCALE are dereferenced unconditionally
everywhere. -/
structure batchnorm_backward_inputs where
  X : Tensor_attributes
  DY : Tensor_attributes
  SCALE : Tensor_attributes
  MEAN : Option Tensor_attributes := none
  INV_VARIANCE : Option Tensor_attributes := none
  EPSILON : Option Tensor_attributes := none
deriving DecidableEq, Repr

/-- Output roles of `batchnorm_backward_attributes`. -/
structure batchnorm_backward_outputs where
  DX : Tensor_attributes
  DSCALE : Tensor_attributes
  DBIAS : Tensor_attributes
deriving DecidableEq, Repr

/-- `batchnorm_backward_attributes`. -/
structure batchnorm_backward_attributes where
  inputs : batchnorm_backward_inputs
  outputs : batchnorm_backward_outputs
deriving DecidableEq, Repr

/-- `DBNNode::validate_node`: fails with `ATTRIBUTE_NOT_SET` exactly when
MEAN, INV_VARIANCE and EPSILON are all three null; reads nothing else and
(being a `const` member returning only `error_t`) mutates nothing. -/
def DBNNode.validate_node (o : batchnorm_backward_attributes) : error_t :=
  if o.inputs.MEAN.isNone && o.inputs.INV_VARIANCE.isNone && o.inputs.EPSILON.isNone then
    { code := error_code_t.ATTRIBUTE_NOT_SET,
      msg := "[cudnn_frontend] ERROR: Either saved mean/inv_variance or epsilon required." }
  else ok_error_t

/-- `DBNNode::infer_properties_node`: DY and DX copy X's shape when unset,
SCALE/MEAN/INV_VARIANCE/DSCALE/DBIAS get per-channel inference, empty strides
are generated.  MEAN and INV_VARIANCE are dereferenced with no null guard
(`infer_per_channel_tensors(options.inputs.MEAN)` reads `T->get_dim()`), so a
null MEAN or INV_VARIANCE is a null-pointer dereference, embedded as `none`. -/
def DBNNode.infer_properties_node (o : batchnorm_backward_attributes) :
    Option batchnorm_backward_attributes := do
  let x_tensor_dim := o.inputs.X.dim
  let DY := infer_copy_from_x x_tensor_dim o.inputs.DY
  let DX := infer_copy_from_x x_tensor_dim o.outputs.DX
  let MEAN ← o.inputs.MEAN
  let INV_VARIANCE ← o.inputs.INV_VARIANCE
  some { o with
    inputs := { o.inputs with
      DY := DY
      MEAN := some (infer_per_channel_tensors x_tensor_dim MEAN)
      INV_VARIANCE := some (infer_per_channel_tensors x_tensor_dim INV_VARIANCE)
      SCALE := infer_per_channel_tensors x_tensor_dim o.inputs.SCALE }
    outputs := {
      DX := DX
      DSCALE := infer_per_channel_tensors x_tensor_dim o.outputs.DSCALE
      DBIAS := infer_per_channel_tensors x_tensor_dim o.outputs.DBIAS } }

/-- `DBNNode::assign_uids_node` calls `set_uid` on X, DY, SCALE, MEAN,
INV_VARIANCE, DX, DSCALE, DBIAS in this order, dereferencing MEAN and
INV_VARIANCE with no null guard; `none` stands for that crash. -/
def DBNNode.assign_uids_order (o : batchnorm_backward_attributes) : Option (List Nat) := do
  let MEAN ← o.inputs.MEAN
  let INV_VARIANCE ← o.inputs.INV_VARIANCE
  some [o.inputs.X.id, o.inputs.DY.id, o.inputs.SCALE.id, MEAN.id, INV_VARIANCE.id,
        o.outputs.DX.id, o.outputs.DSCALE.id, o.outputs.DBIAS.id]

/-- Modelled from the spec: `create_cudnn_tensor` (the tensor-handle factory,
declared outside the four node headers) materializes a backend handle from the
descriptor's shape, stride, data type, identifier and virtuality — hence it
reads through the descriptor pointer, and a null descriptor cannot be
materialized.  The opaque handle is represented by the descriptor's uid. -/
def create_cudnn_tensor (t : Option Tensor_attributes) : Option Nat :=
  t.map fun t => t.uid

/-- `DBNNode::createTensors` materializes X, DY, SCALE, MEAN, INV_VARIANCE,
DX, DSCALE, DBIAS in this order (epsilon is commented out in the source);
MEAN and INV_VARIANCE go through `create_cudnn_tensor` with no null guard. -/
def DBNNode.createTensors (o : batchnorm_backward_attributes) : Option (List Nat) := do
  let x ← create_cudnn_tensor (some o.inputs.X)
  let dy ← create_cudnn_tensor (some o.inputs.DY)
  let sc ← create_cudnn_tensor (some o.inputs.SCALE)
  let m ← create_cudnn_tensor o.inputs.MEAN
  let v ← create_cudnn_tensor o.inputs.INV_VARIANCE
  let dx ← create_cudnn_tensor (some o.outputs.DX)
  let ds ← create_cudnn_tensor (some o.outputs.DSCALE)
  let db ← create_cudnn_tensor (some o.outputs.DBIAS)
  some [x, dy, sc, m, v, dx, ds, db]

/-! ## Random-number-generation (Rng) node -/

/-- `RngDistribution_t`. -/
inductive RngDistribution_t where
  | NOT_SET
  | BERNOULLI
deriving DecidableEq, Repr

/-- Input roles of `Rng_attributes`: Seed and Offset are optional. -/
structure Rng_inputs where
  Seed : Option Tensor_attributes := none
  Offset : Option Tensor_attributes := none
deriving DecidableEq, Repr

/-- Output role of `Rng_attributes`: Y, tested for null by validation. -/
structure Rng_outputs where
  Y : Option Tensor_attributes := none
deriving DecidableEq, Repr

/-- `Rng_attributes`: tensor roles plus the scalar attributes read through
`get_distribution`, `get_bernoulli_probability` and `get_seed`. -/
structure Rng_attributes where
  distribution : RngDistribution_t := RngDistribution_t.NOT_SET
  bernoulli_probability : Option Float := none
  seed : Option Int := none
  inputs : Rng_inputs
  outputs : Rng_outputs

/-- `RngNode::validate_node`: fails with `ATTRIBUTE_NOT_SET` exactly when the
Y output descriptor is null; reads nothing else and (being a `const` member
returning only `error_t`) mutates nothing. -/
def RngNode.validate_node (o : Rng_attributes) : error_t :=
  if o.outputs.Y.isNone then
    { code := error_code_t.ATTRIBUTE_NOT_SET,
      msg := "[cudnn_frontend] ERROR: rng output not set." }
  else ok_error_t

/-- `RngNode::assign_uids_node`: Seed and Offset get a uid only when present
(`if (options.inputs.Seed) ...`), Y is dereferenced unconditionally. -/
def RngNode.assign_uids_order (o : Rng_attributes) : Option (List Nat) := do
  let seed_ids := match o.inputs.Seed with
    | some s => [s.id]
    | none => []
  let offset_ids := match o.inputs.Offset with
    | some t => [t.id]
    | none => []
  let Y ← o.outputs.Y
  some (seed_ids ++ offset_ids ++ [Y.id])

/-! ## Operation lowering -/

/-- The uid-collection loop that every `createOperations` ends with:
`for (auto const& tensor : tensors_involved_in_operation) if (tensor &&
tensor->get_is_virtual() == false) uids_in_operation.push_back(tensor->get_uid())`. -/
def uids_of_involved (tensors_involved : List (Option Tensor_attributes)) : List Nat :=
  tensors_involved.filterMap fun t =>
    match t with
    | some t => if t.is_virtual = false then some t.uid else none
    | none => none

/-- One lowered operation record: the backend operation descriptor paired with
the identifiers the backend must bind. -/
structure OperationRecord (α : Type) where
  op : α
  uids_in_operation : List Nat
deriving DecidableEq, Repr

/-- The argument list `BatchNormNode::createOperations` feeds the uid filter. -/
def BatchNormNode.tensors_involved (o : Batchnorm_attributes) : List (Option Tensor_attributes) :=
  [some o.inputs.X, some o.inputs.PREV_RUNNING_MEAN, some o.inputs.PREV_RUNNING_VAR,
   some o.inputs.EPSILON, some o.inputs.MOMENTUM, some o.inputs.SCALE, some o.inputs.BIAS,
   some o.outputs.Y, some o.outputs.MEAN, some o.outputs.INV_VARIANCE,
   some o.outputs.NEXT_RUNNING_MEAN, some o.outputs.NEXT_RUNNING_VAR]

/-- The normalization-forward operation descriptor built by
`BatchNormNode::createOperations` (backend tensor handles plus the phase). -/
structure BatchnormOperation where
  forward_phase : NormFwdPhase_t
  xDesc : Nat
  savedMeanDesc : Nat
  savedInvVarDesc : Nat
  scaleDesc : Nat
  biasDesc : Nat
  prevRunningMeanDesc : Nat
  prevRunningVarDesc : Nat
  nextRunningMeanDesc : Nat
  nextRunningVarDesc : Nat
  epsilonDesc : Nat
  momentumDesc : Nat
  yDesc : Nat
deriving DecidableEq, Repr

/-- `BatchNormNode::createOperations`: looks up every role's handle in the
node's uid→handle map (`tensors.at`, which throws on a missing key — `none`),
builds one operation and appends one record whose uid list is the filter of
the twelve involved tensors. -/
def BatchNormNode.createOperations (o : Batchnorm_attributes) (tensors : Nat → Option Nat) :
    Option (List (OperationRecord BatchnormOperation) × error_t) := do
  let xDesc ← tensors o.inputs.X.uid
  let savedMeanDesc ← tensors o.outputs.MEAN.uid
  let savedInvVarDesc ← tensors o.outputs.INV_VARIANCE.uid
  let scaleDesc ← tensors o.inputs.SCALE.uid
  let biasDesc ← tensors o.inputs.BIAS.uid
  let prevRunningMeanDesc ← tensors o.inputs.PREV_RUNNING_MEAN.uid
  let prevRunningVarDesc ← tensors o.inputs.PREV_RUNNING_VAR.uid
  let nextRunningMeanDesc ← tensors o.outputs.NEXT_RUNNING_MEAN.uid
  let nextRunningVarDesc ← tensors o.outputs.NEXT_RUNNING_VAR.uid
  let epsilonDesc ← tensors o.inputs.EPSILON.uid
  let momentumDesc ← tensors o.inputs.MOMENTUM.uid
  let yDesc ← tensors o.outputs.Y.uid
  let batchnorm_operation : BatchnormOperation :=
    { forward_phase := o.forward_phase, xDesc, savedMeanDesc, savedInvVarDesc,
      scaleDesc, biasDesc, prevRunningMeanDesc, prevRunningVarDesc,
      nextRunningMeanDesc, nextRunningVarDesc, epsilonDesc, momentumDesc, yDesc }
  some ([{ op := batchnorm_operation,
           uids_in_operation := uids_of_involved (BatchNormNode.tensors_involved o) }],
        ok_error_t)

/-- The argument list `DBNNode::createOperations` feeds the uid filter
(epsilon is commented out in the source). -/
def DBNNode.tensors_involved (o : batchnorm_backward_attributes) :
    List (Option Tensor_attributes) :=
  [some o.inputs.X, some o.inputs.DY, some o.inputs.SCALE,
   o.inputs.MEAN, o.inputs.INV_VARIANCE,
   some o.outputs.DX, some o.outputs.DSCALE, some o.outputs.DBIAS]

/-- The normalization-backward operation descriptor built by
`DBNNode::createOperations`. -/
structure DBNOperation where
  xDesc : Nat
  dyDesc : Nat
  scaleDesc : Nat
  savedMeanDesc : Nat
  savedInvVarDesc : Nat
  dscaleDesc : Nat
  dbiasDesc : Nat
  dxDesc : Nat
deriving DecidableEq, Repr

/-- `DBNNode::createOperations`: dereferences MEAN and INV_VARIANCE with no
null guard for their handle lookups, builds one operation and appends one
record with the filtered uid list. -/
def DBNNode.createOperations (o : batchnorm_backward_attributes) (tensors : Nat → Option Nat) :
    Option (List (OperationRecord DBNOperation) × error_t) := do
  let xDesc ← tensors o.inputs.X.uid
  let dyDesc ← tensors o.inputs.DY.uid
  let scaleDesc ← tensors o.inputs.SCALE.uid
  let MEAN ← o.inputs.MEAN
  let savedMeanDesc ← tensors MEAN.uid
  let INV_VARIANCE ← o.inputs.INV_VARIANCE
  let savedInvVarDesc ← tensors INV_VARIANCE.uid
  let dscaleDesc ← tensors o.outputs.DSCALE.uid
  let dbiasDesc ← tensors o.outputs.DBIAS.uid
  let dxDesc ← tensors o.outputs.DX.uid
  let DBN_operation : DBNOperation :=
    { xDesc, dyDesc, scaleDesc, savedMeanDesc, savedInvVarDesc, dscaleDesc, dbiasDesc, dxDesc }
  some ([{ op := DBN_operation,
           uids_in_operation := uids_of_involved (DBNNode.tensors_involved o) }],
        ok_error_t)

/-- The argument list `DgradNode::createOperations` feeds the uid filter. -/
def DgradNode.tensors_involved (o : Conv_dgrad_attributes) : List (Option Tensor_attributes) :=
  [some o.outputs.DX, some o.inputs.W, some o.inputs.DY]

/-- The convolution descriptor built by `ConvDescBuilder` in
`DgradNode::createOperations`. -/
structure ConvDesc where
  spatial_dim_count : Nat
  spatial_stride : List Int
  pre_padding : List Int
  post_padding : List Int
  dilation : List Int
deriving DecidableEq, Repr

/-- The backward-data operation descriptor built by
`DgradNode::createOperations` (alpha = 1, beta = 0 are fixed literals). -/
structure DgradOperation where
  dxDesc : Nat
  wDesc : Nat
  dyDesc : Nat
  cDesc : ConvDesc
deriving DecidableEq, Repr

/-- `DgradNode::createOperations`. -/
def DgradNode.createOperations (o : Conv_dgrad_attributes) (tensors : Nat → Option Nat) :
    Option (List (OperationRecord DgradOperation) × error_t) := do
  let spatial_dim_count := o.padding.length
  let dgrad_descriptor : ConvDesc :=
    { spatial_dim_count, spatial_stride := o.stride, pre_padding := o.padding,
      post_padding := o.padding, dilation := o.dilation }
  let dxDesc ← tensors o.outputs.DX.uid
  let wDesc ← tensors o.inputs.W.uid
  let dyDesc ← tensors o.inputs.DY.uid
  let dgrad_operation : DgradOperation := { dxDesc, wDesc, dyDesc, cDesc := dgrad_descriptor }
  some ([{ op := dgrad_operation,
           uids_in_operation := uids_of_involved (DgradNode.tensors_involved o) }],
        ok_error_t)

/-- The argument list `RngNode::createOperations` feeds the uid filter (shared
by both seeding branches). -/
def RngNode.tensors_involved (o : Rng_attributes) : List (Option Tensor_attributes) :=
  [o.inputs.Seed, o.inputs.Offset, o.outputs.Y]

/-- The rng descriptor built by `RngDescBuilder`. -/
structure RngDesc where
  distribution : RngDistribution_t
  bernoulli_probability : Float

/-- How the emitted rng operation is seeded: either wired to the Seed and
Offset backend tensor handles (`setSeedDesc`/`setOffsetDesc`) or carrying a
literal seed value (`setSeed`). -/
inductive RngSeedWiring where
  | tensorHandles (seedDesc offsetDesc : Nat)
  | literalSeed (seed : Int)

/-- The rng operation descriptor built by `RngNode::createOperations`. -/
structure RngOperation where
  yDesc : Nat
  rngDesc : RngDesc
  seedWiring : RngSeedWiring

/-- `RngNode::createOperations`: only the BERNOULLI distribution emits an
operation.  With Seed present the operation is wired to the Seed and Offset
handles — Offset is dereferenced with no null guard; with Seed absent the
operation embeds `get_seed().value()` and wires no handles.  Any other
distribution emits nothing and returns `{OK, ""}`. -/
def RngNode.createOperations (o : Rng_attributes) (tensors : Nat → Option Nat) :
    Option (List (OperationRecord RngOperation) × error_t) := do
  if o.distribution = RngDistribution_t.BERNOULLI then
    let p ← o.bernoulli_probability
    let rng_descriptor : RngDesc := { distribution := o.distribution, bernoulli_probability := p }
    match o.inputs.Seed with
    | some Seed => do
        let Y ← o.outputs.Y
        let yDesc ← tensors Y.uid
        let seedDesc ← tensors Seed.uid
        let Offset ← o.inputs.Offset
        let offsetDesc ← tensors Offset.uid
        let Rng_operation : RngOperation :=
          { yDesc, rngDesc := rng_descriptor,
            seedWiring := RngSeedWiring.tensorHandles seedDesc offsetDesc }
        some ([{ op := Rng_operation,
                 uids_in_operation := uids_of_involved (RngNode.tensors_involved o) }],
              ok_error_t)
    | none => do
        let Y ← o.outputs.Y
        let yDesc ← tensors Y.uid
        let s ← o.seed
        let Rng_operation : RngOperation :=
          { yDesc, rngDesc := rng_descriptor, seedWiring := RngSeedWiring.literalSeed s }
        some ([{ op := Rng_operation,
                 uids_in_operation := uids_of_involved (RngNode.tensors_involved o) }],
              ok_error_t)
  else
    some ([], ok_error_t)

/-! ## Identifier assignment -/

/-- Modelled from the spec: the process-wide state behind
`ICudnn::create_new_uid` and `Tensor_attributes::set_uid` (both declared
outside the four node headers).  `next_uid` is the monotonically increasing
counter, never reset during a build; `assigned` maps a descriptor's object
identity to the identifier it carries, `none` while still unset. -/
structure UidState where
  next_uid : Nat
  assigned : Nat → Option Nat

/-- Modelled from the spec: one `T->set_uid(ICudnn::create_new_uid())` call
with the spec's assign-exactly-once guard — a descriptor that already carries
an identifier keeps it, an unset one receives the next counter value. -/
def set_uid_fresh (s : UidState) (t : Nat) : UidState :=
  match s.assigned t with
  | some _ => s
  | none =>
    { next_uid := s.next_uid + 1,
      assigned := fun t2 => if t2 = t then some s.next_uid else s.assigned t2 }

/-- One node's `assign_uids_node`: `set_uid` on each referenced descriptor in
the node's fixed role order (for example `BatchNormNode.assign_uids_order` or
`DgradNode.assign_uids_order`). -/
def assign_uids_node_run (ts : List Nat) (s : UidState) : UidState :=
  ts.foldl set_uid_fresh s

/-- A whole graph build: every node's `assign_uids` call in driver order. -/
def assign_uids_graph (nodes : List (List Nat)) (s : UidState) : UidState :=
  nodes.foldl (fun s ts => assign_uids_node_run ts s) s

/-- The uid-state invariant: every assigned identifier is below the counter,
and no two distinct descriptors carry the same identifier. -/
def UidStateOk (s : UidState) : Prop :=
  (∀ t u, s.assigned t = some u → u < s.next_uid) ∧
  (∀ t1 t2 u, s.assigned t1 = some u → s.assigned t2 = some u → t1 = t2)

theorem set_uid_fresh_keeps (s : UidState) (t t0 : Nat) (u : Nat)
    (h : s.assigned t0 = some u) : (set_uid_fresh s t).assigned t0 = some u := by
  cases ht : s.assigned t with
  | some v => simpa [set_uid_fresh, ht] using h
  | none =>
    simp only [set_uid_fresh, ht]
    rcases eq_or_ne t0 t with rfl | hne
    · rw [ht] at h
      exact absurd h (by simp)
    · simp [hne, h]

theorem set_uid_fresh_ok (s : UidState) (t : Nat) (h : UidStateOk s) :
    UidStateOk (set_uid_fresh s t) := by
  obtain ⟨hb, hinj⟩ := h
  cases ht : s.assigned t with
  | some v =>
    constructor
    · intro t0 u h0
      simp only [set_uid_fresh, ht] at h0 ⊢
      exact hb _ _ h0
    · intro t1 t2 u h1 h2
      simp only [set_uid_fresh, ht] at h1 h2
      exact hinj _ _ _ h1 h2
  | none =>
    constructor
    · intro t0 u h0
      simp only [set_uid_fresh, ht] at h0 ⊢
      by_cases he : t0 = t
      · simp [he] at h0
        omega
      · simp [he] at h0
        exact Nat.lt_succ_of_lt (hb _ _ h0)
    · intro t1 t2 u h1 h2
      simp only [set_uid_fresh, ht] at h1 h2
      by_cases he1 : t1 = t <;> by_cases he2 : t2 = t
      · rw [he1, he2]
      · simp [he1] at h1
        simp [he2] at h2
        have := hb _ _ h2
        omega
      · simp [he1] at h1
        simp [he2] at h2
        have := hb _ _ h1
        omega
      · simp [he1] at h1
        simp [he2] at h2
        exact hinj _ _ _ h1 h2

theorem assign_uids_node_run_keeps (ts : List Nat) (s : UidState) (t0 u : Nat)
    (h : s.assigned t0 = some u) : (assign_uids_node_run ts s).assigned t0 = some u := by
  induction ts generalizing s with
  | nil => exact h
  | cons t ts ih => exact ih _ (set_uid_fresh_keeps s t t0 u h)

theorem assign_uids_node_run_ok (ts : List Nat) (s : UidState) (h : UidStateOk s) :
    UidStateOk (assign_uids_node_run ts s) := by
  induction ts generalizing s with
  | nil => exact h
  | cons t ts ih => exact ih _ (set_uid_fresh_ok s t h)

theorem assign_uids_graph_keeps (nodes : List (List Nat)) (s : UidState) (t0 u : Nat)
    (h : s.assigned t0 = some u) : (assign_uids_graph nodes s).assigned t0 = some u := by
  induction nodes generalizing s with
  | nil => exact h
  | cons ts nodes ih => exact ih _ (assign_uids_node_run_keeps ts s t0 u h)

theorem assign_uids_graph_ok (nodes : List (List Nat)) (s : UidState) (h : UidStateOk s) :
    UidStateOk (assign_uids_graph nodes s) := by
  induction nodes generalizing s with
  | nil => exact h
  | cons ts nodes ih => exact ih _ (assign_uids_node_run_ok ts s h)

/-! ## Shape inference theorems -/

/-- The shape per-channel inference writes into an unset shape. -/
theorem infer_per_channel_tensors_dim (x_dim : List Int) (T : Tensor_attributes)
    (hT : T.dim = []) :
    (infer_per_channel_tensors x_dim T).dim =
      (List.replicate x_dim.length (1 : Int)).set 1 (x_dim.getD 1 0) := by
  unfold infer_per_channel_tensors
  simp only [hT, List.isEmpty_nil, if_true]
  split <;> rfl

/-- A per-channel inferred shape: the primary input's rank, all dimensions 1
except index 1, which carries the primary input's dimension 1. -/
def per_channel_inferred (x_dim dim : List Int) : Prop :=
  dim.length = x_dim.length ∧
  (∀ i, i < dim.length → i ≠ 1 → dim.getD i 0 = 1) ∧
  dim.getD 1 0 = x_dim.getD 1 0

theorem infer_per_channel_tensors_spec (x_dim : List Int) (T : Tensor_attributes)
    (hT : T.dim = []) (hx : 2 ≤ x_dim.length) :
    per_channel_inferred x_dim (infer_per_channel_tensors x_dim T).dim := by
  rw [infer_per_channel_tensors_dim x_dim T hT]
  refine ⟨by simp, ?_, ?_⟩
  · intro i hi h1
    rw [List.length_set, List.length_replicate] at hi
    rw [getD_replicate_set _ _ _ _ _ hi]
    simp [Ne.symm h1]
  · rw [getD_replicate_set _ _ _ _ _ (by omega)]
    simp

/-- Claim C2:  Every per-channel-inferred role (batchnorm forward: MEAN,
INV_VARIANCE, NEXT_RUNNING_MEAN, NEXT_RUNNING_VAR, PREV_RUNNING_MEAN,
PREV_RUNNING_VAR, SCALE, BIAS; DBN: MEAN, INV_VARIANCE, SCALE, DSCALE,
DBIAS) whose shape is empty before `infer_properties_node` ends up with X's
rank, all dimensions 1 except index 1, which copies X's dimension 1.  X must
have rank at least 2 since the code indexes `x_tensor_dim[1]`. -/
theorem C2_per_channel_role_inference :
    (∀ o : Batchnorm_attributes, 2 ≤ o.inputs.X.dim.length →
      (o.outputs.MEAN.dim = [] → per_channel_inferred o.inputs.X.dim
        (BatchNormNode.infer_properties_node o).outputs.MEAN.dim) ∧
      (o.outputs.INV_VARIANCE.dim = [] → per_channel_inferred o.inputs.X.dim
        (BatchNormNode.infer_properties_node o).outputs.INV_VARIANCE.dim) ∧
      (o.outputs.NEXT_RUNNING_MEAN.dim = [] → per_channel_inferred o.inputs.X.dim
        (BatchNormNode.infer_properties_node o).outputs.NEXT_RUNNING_MEAN.dim) ∧
      (o.outputs.NEXT_RUNNING_VAR.dim = [] → per_channel_inferred o.inputs.X.dim
        (BatchNormNode.infer_properties_node o).outputs.NEXT_RUNNING_VAR.dim) ∧
      (o.inputs.PREV_RUNNING_MEAN.dim = [] → per_channel_inferred o.inputs.X.dim
        (BatchNormNode.infer_properties_node o).inputs.PREV_RUNNING_MEAN.dim) ∧
      (o.inputs.PREV_RUNNING_VAR.dim = [] → per_channel_inferred o.inputs.X.dim
        (BatchNormNode.infer_properties_node o).inputs.PREV_RUNNING_VAR.dim) ∧
      (o.inputs.SCALE.dim = [] → per_channel_inferred o.inputs.X.dim
        (BatchNormNode.infer_properties_node o).inputs.SCALE.dim) ∧
      (o.inputs.BIAS.dim = [] → per_channel_inferred o.inputs.X.dim
        (BatchNormNode.infer_properties_node o).inputs.BIAS.dim)) ∧
    (∀ o o' : batchnorm_backward_attributes, DBNNode.infer_properties_node o = some o' →
      2 ≤ o.inputs.X.dim.length →
      (∀ m, o.inputs.MEAN = some m → m.dim = [] →
        ∃ m2, o'.inputs.MEAN = some m2 ∧ per_channel_inferred o.inputs.X.dim m2.dim) ∧
      (∀ v, o.inputs.INV_VARIANCE = some v → v.dim = [] →
        ∃ v2, o'.inputs.INV_VARIANCE = some v2 ∧ per_channel_inferred o.inputs.X.dim v2.dim) ∧
      (o.inputs.SCALE.dim = [] → per_channel_inferred o.inputs.X.dim o'.inputs.SCALE.dim) ∧
      (o.outputs.DSCALE.dim = [] → per_channel_inferred o.inputs.X.dim o'.outputs.DSCALE.dim) ∧
      (o.outputs.DBIAS.dim = [] → per_channel_inferred o.inputs.X.dim o'.outputs.DBIAS.dim)) := by
  constructor
  · intro o hx
    refine ⟨?_, ?_, ?_, ?_, ?_, ?_, ?_, ?_⟩ <;>
      exact fun h => infer_per_channel_tensors_spec _ _ h hx
  · intro o o' h hx
    cases hm : o.inputs.MEAN with
    | none => simp [DBNNode.infer_properties_node, hm] at h
    | some m0 =>
      cases hv : o.inputs.INV_VARIANCE with
      | none => simp [DBNNode.infer_properties_node, hm, hv] at h
      | some v0 =>
        simp only [DBNNode.infer_properties_node, hm, hv, Option.bind_eq_bind,
          Option.some_bind, Option.some.injEq] at h
        subst h
        refine ⟨?_, ?_, ?_, ?_, ?_⟩
        · intro m hm2 hdim
          injection hm2 with hm2
          subst hm2
          exact ⟨_, rfl, infer_per_channel_tensors_spec _ _ hdim hx⟩
        · intro v hv2 hdim
          injection hv2 with hv2
          subst hv2
          exact ⟨_, rfl, infer_per_channel_tensors_spec _ _ hdim hx⟩
        · exact fun h => infer_per_channel_tensors_spec _ _ h hx
        · exact fun h => infer_per_channel_tensors_spec _ _ h hx
        · exact fun h => infer_per_channel_tensors_spec _ _ h hx

/-- A sample primary input descriptor with shape [2,3,4,5]. -/
def sampleX : Tensor_attributes := { id := 1, dim := [2, 3, 4, 5], stride := [60, 20, 5, 1] }

/-- A sample descriptor with unset shape and stride. -/
def sampleEmpty (n : Nat) : Tensor_attributes := { id := n }

/-- Sample batchnorm attributes: X fully set, every other role unset. -/
def sampleBN : Batchnorm_attributes :=
  { forward_phase := NormFwdPhase_t.TRAINING,
    inputs := { X := sampleX, SCALE := sampleEmpty 2, BIAS := sampleEmpty 3,
                PREV_RUNNING_MEAN := sampleEmpty 4, PREV_RUNNING_VAR := sampleEmpty 5,
                EPSILON := sampleEmpty 6, MOMENTUM := sampleEmpty 7 },
    outputs := { Y := sampleEmpty 8, MEAN := sampleEmpty 9, INV_VARIANCE := sampleEmpty 10,
                 NEXT_RUNNING_MEAN := sampleEmpty 11, NEXT_RUNNING_VAR := sampleEmpty 12 } }

/-- Concrete instantiation of `C2_per_channel_role_inference` at `sampleBN`:
the inferred MEAN shape is per-channel. -/
theorem C2_per_channel_role_inference_witness :
    per_channel_inferred sampleBN.inputs.X.dim
      (BatchNormNode.infer_properties_node sampleBN).outputs.MEAN.dim :=
  (C2_per_channel_role_inference.1 sampleBN (by decide)).1 rfl

/-! ## Frame lemmas: caller-supplied shapes and strides are never overwritten -/

theorem infer_per_channel_tensors_dim_frame (x_dim : List Int) (T : Tensor_attributes)
    (h : T.dim ≠ []) : (infer_per_channel_tensors x_dim T).dim = T.dim := by
  have hd : T.dim.isEmpty = false := by simpa [List.isEmpty_iff] using h
  unfold infer_per_channel_tensors
  simp only [hd, Bool.false_eq_true, if_false]
  split <;> rfl

theorem infer_per_channel_tensors_stride_frame (x_dim : List Int) (T : Tensor_attributes)
    (h : T.stride ≠ []) : (infer_per_channel_tensors x_dim T).stride = T.stride := by
  have hs : T.stride.isEmpty = false := by simpa [List.isEmpty_iff] using h
  cases hd : T.dim.isEmpty <;> simp [infer_per_channel_tensors, hd, hs]

theorem infer_scalar_tensors_dim_frame (x_dim : List Int) (T : Tensor_attributes)
    (h : T.dim ≠ []) : (infer_scalar_tensors x_dim T).dim = T.dim := by
  have hd : T.dim.isEmpty = false := by simpa [List.isEmpty_iff] using h
  unfold infer_scalar_tensors
  simp only [hd, Bool.false_eq_true, if_false]
  split <;> rfl

theorem infer_scalar_tensors_stride_frame (x_dim : List Int) (T : Tensor_attributes)
    (h : T.stride ≠ []) : (infer_scalar_tensors x_dim T).stride = T.stride := by
  have hs : T.stride.isEmpty = false := by simpa [List.isEmpty_iff] using h
  cases hd : T.dim.isEmpty <;> simp [infer_scalar_tensors, hd, hs]

theorem infer_copy_from_x_dim_frame (x_dim : List Int) (T : Tensor_attributes)
    (h : T.dim ≠ []) : (infer_copy_from_x x_dim T).dim = T.dim := by
  have hd : T.dim.isEmpty = false := by simpa [List.isEmpty_iff] using h
  unfold infer_copy_from_x
  simp only [hd, Bool.false_eq_true, if_false]
  split <;> rfl

theorem infer_copy_from_x_stride_frame (x_dim : List Int) (T : Tensor_attributes)
    (h : T.stride ≠ []) : (infer_copy_from_x x_dim T).stride = T.stride := by
  have hs : T.stride.isEmpty = false := by simpa [List.isEmpty_iff] using h
  cases hd : T.dim.isEmpty <;> simp [infer_copy_from_x, hd, hs]

theorem dgrad_dx_dim_frame (o : Conv_dgrad_attributes) (h : o.outputs.DX.dim ≠ []) :
    (DgradNode.infer_properties_node o).outputs.DX.dim = o.outputs.DX.dim := by
  have hd : o.outputs.DX.dim.isEmpty = false := by simpa [List.isEmpty_iff] using h
  unfold DgradNode.infer_properties_node
  simp only [hd, Bool.false_eq_true, if_false]
  split <;> rfl

theorem dgrad_dx_stride_frame (o : Conv_dgrad_attributes) (h : o.outputs.DX.stride ≠ []) :
    (DgradNode.infer_properties_node o).outputs.DX.stride = o.outputs.DX.stride := by
  have hs : o.outputs.DX.stride.isEmpty = false := by simpa [List.isEmpty_iff] using h
  cases hd : o.outputs.DX.dim.isEmpty <;>
    simp [DgradNode.infer_properties_node, hd, hs]

/-- Claim C3:  `infer_properties_node` never overwrites a caller-supplied
non-empty shape or stride, for every tensor descriptor of every node kind
that defines inference (batchnorm forward, DBN, Dgrad); descriptors the
stage does not touch at all (X, W, DY of Dgrad, EPSILON of DBN) are returned
identically. -/
theorem C3_infer_preserves_caller_shapes :
    (∀ o : Batchnorm_attributes,
      (BatchNormNode.infer_properties_node o).inputs.X = o.inputs.X ∧
      (o.outputs.Y.dim ≠ [] →
        (BatchNormNode.infer_properties_node o).outputs.Y.dim = o.outputs.Y.dim) ∧
      (o.outputs.Y.stride ≠ [] →
        (BatchNormNode.infer_properties_node o).outputs.Y.stride = o.outputs.Y.stride) ∧
      (o.outputs.MEAN.dim ≠ [] →
        (BatchNormNode.infer_properties_node o).outputs.MEAN.dim = o.outputs.MEAN.dim) ∧
      (o.outputs.MEAN.stride ≠ [] →
        (BatchNormNode.infer_properties_node o).outputs.MEAN.stride = o.outputs.MEAN.stride) ∧
      (o.outputs.INV_VARIANCE.dim ≠ [] →
        (BatchNormNode.infer_properties_node o).outputs.INV_VARIANCE.dim =
          o.outputs.INV_VARIANCE.dim) ∧
      (o.outputs.INV_VARIANCE.stride ≠ [] →
        (BatchNormNode.infer_properties_node o).outputs.INV_VARIANCE.stride =
          o.outputs.INV_VARIANCE.stride) ∧
      (o.outputs.NEXT_RUNNING_MEAN.dim ≠ [] →
        (BatchNormNode.infer_properties_node o).outputs.NEXT_RUNNING_MEAN.dim =
          o.outputs.NEXT_RUNNING_MEAN.dim) ∧
      (o.outputs.NEXT_RUNNING_MEAN.stride ≠ [] →
        (BatchNormNode.infer_properties_node o).outputs.NEXT_RUNNING_MEAN.stride =
          o.outputs.NEXT_RUNNING_MEAN.stride) ∧
      (o.outputs.NEXT_RUNNING_VAR.dim ≠ [] →
        (BatchNormNode.infer_properties_node o).outputs.NEXT_RUNNING_VAR.dim =
          o.outputs.NEXT_RUNNING_VAR.dim) ∧
      (o.outputs.NEXT_RUNNING_VAR.stride ≠ [] →
        (BatchNormNode.infer_properties_node o).outputs.NEXT_RUNNING_VAR.stride =
          o.outputs.NEXT_RUNNING_VAR.stride) ∧
      (o.inputs.PREV_RUNNING_MEAN.dim ≠ [] →
        (BatchNormNode.infer_properties_node o).inputs.PREV_RUNNING_MEAN.dim =
          o.inputs.PREV_RUNNING_MEAN.dim) ∧
      (o.inputs.PREV_RUNNING_MEAN.stride ≠ [] →
        (BatchNormNode.infer_properties_node o).inputs.PREV_RUNNING_MEAN.stride =
          o.inputs.PREV_RUNNING_MEAN.stride) ∧
      (o.inputs.PREV_RUNNING_VAR.dim ≠ [] →
        (BatchNormNode.infer_properties_node o).inputs.PREV_RUNNING_VAR.dim =
          o.inputs.PREV_RUNNING_VAR.dim) ∧
      (o.inputs.PREV_RUNNING_VAR.stride ≠ [] →
        (BatchNormNode.infer_properties_node o).inputs.PREV_RUNNING_VAR.stride =
          o.inputs.PREV_RUNNING_VAR.stride) ∧
      (o.inputs.SCALE.dim ≠ [] →
        (BatchNormNode.infer_properties_node o).inputs.SCALE.dim = o.inputs.SCALE.dim) ∧
      (o.inputs.SCALE.stride ≠ [] →
        (BatchNormNode.infer_properties_node o).inputs.SCALE.stride = o.inputs.SCALE.stride) ∧
      (o.inputs.BIAS.dim ≠ [] →
        (BatchNormNode.infer_properties_node o).inputs.BIAS.dim = o.inputs.BIAS.dim) ∧
      (o.inputs.BIAS.stride ≠ [] →
        (BatchNormNode.infer_properties_node o).inputs.BIAS.stride = o.inputs.BIAS.stride) ∧
      (o.inputs.EPSILON.dim ≠ [] →
        (BatchNormNode.infer_properties_node o).inputs.EPSILON.dim = o.inputs.EPSILON.dim) ∧
      (o.inputs.EPSILON.stride ≠ [] →
        (BatchNormNode.infer_properties_node o).inputs.EPSILON.stride =
          o.inputs.EPSILON.stride) ∧
      (o.inputs.MOMENTUM.dim ≠ [] →
        (BatchNormNode.infer_properties_node o).inputs.MOMENTUM.dim = o.inputs.MOMENTUM.dim) ∧
      (o.inputs.MOMENTUM.stride ≠ [] →
        (BatchNormNode.infer_properties_node o).inputs.MOMENTUM.stride =
          o.inputs.MOMENTUM.stride)) ∧
    (∀ o o' : batchnorm_backward_attributes, DBNNode.infer_properties_node o = some o' →
      o'.inputs.X = o.inputs.X ∧
      o'.inputs.EPSILON = o.inputs.EPSILON ∧
      (o.inputs.DY.dim ≠ [] → o'.inputs.DY.dim = o.inputs.DY.dim) ∧
      (o.inputs.DY.stride ≠ [] → o'.inputs.DY.stride = o.inputs.DY.stride) ∧
      (o.outputs.DX.dim ≠ [] → o'.outputs.DX.dim = o.outputs.DX.dim) ∧
      (o.outputs.DX.stride ≠ [] → o'.outputs.DX.stride = o.outputs.DX.stride) ∧
      (o.inputs.SCALE.dim ≠ [] → o'.inputs.SCALE.dim = o.inputs.SCALE.dim) ∧
      (o.inputs.SCALE.stride ≠ [] → o'.inputs.SCALE.stride = o.inputs.SCALE.stride) ∧
      (o.outputs.DSCALE.dim ≠ [] → o'.outputs.DSCALE.dim = o.outputs.DSCALE.dim) ∧
      (o.outputs.DSCALE.stride ≠ [] → o'.outputs.DSCALE.stride = o.outputs.DSCALE.stride) ∧
      (o.outputs.DBIAS.dim ≠ [] → o'.outputs.DBIAS.dim = o.outputs.DBIAS.dim) ∧
      (o.outputs.DBIAS.stride ≠ [] → o'.outputs.DBIAS.stride = o.outputs.DBIAS.stride) ∧
      (∀ m m2, o.inputs.MEAN = some m → o'.inputs.MEAN = some m2 →
        (m.dim ≠ [] → m2.dim = m.dim) ∧ (m.stride ≠ [] → m2.stride = m.stride)) ∧
      (∀ v v2, o.inputs.INV_VARIANCE = some v → o'.inputs.INV_VARIANCE = some v2 →
        (v.dim ≠ [] → v2.dim = v.dim) ∧ (v.stride ≠ [] → v2.stride = v.stride))) ∧
    (∀ o : Conv_dgrad_attributes,
      (DgradNode.infer_properties_node o).inputs = o.inputs ∧
      (o.outputs.DX.dim ≠ [] →
        (DgradNode.infer_properties_node o).outputs.DX.dim = o.outputs.DX.dim) ∧
      (o.outputs.DX.stride ≠ [] →
        (DgradNode.infer_properties_node o).outputs.DX.stride = o.outputs.DX.stride)) := by
  refine ⟨?_, ?_, ?_⟩
  · intro o
    exact ⟨rfl,
      fun h => infer_copy_from_x_dim_frame _ _ h,
      fun h => infer_copy_from_x_stride_frame _ _ h,
      fun h => infer_per_channel_tensors_dim_frame _ _ h,
      fun h => infer_per_channel_tensors_stride_frame _ _ h,
      fun h => infer_per_channel_tensors_dim_frame _ _ h,
      fun h => infer_per_channel_tensors_stride_frame _ _ h,
      fun h => infer_per_channel_tensors_dim_frame _ _ h,
      fun h => infer_per_channel_tensors_stride_frame _ _ h,
      fun h => infer_per_channel_tensors_dim_frame _ _ h,
      fun h => infer_per_channel_tensors_stride_frame _ _ h,
      fun h => infer_per_channel_tensors_dim_frame _ _ h,
      fun h => infer_per_channel_tensors_stride_frame _ _ h,
      fun h => infer_per_channel_tensors_dim_frame _ _ h,
      fun h => infer_per_channel_tensors_stride_frame _ _ h,
      fun h => infer_per_channel_tensors_dim_frame _ _ h,
      fun h => infer_per_channel_tensors_stride_frame _ _ h,
      fun h => infer_per_channel_tensors_dim_frame _ _ h,
      fun h => infer_per_channel_tensors_stride_frame _ _ h,
      fun h => infer_scalar_tensors_dim_frame _ _ h,
      fun h => infer_scalar_tensors_stride_frame _ _ h,
      fun h => infer_scalar_tensors_dim_frame _ _ h,
      fun h => infer_scalar_tensors_stride_frame _ _ h⟩
  · intro o o' h
    cases hm : o.inputs.MEAN with
    | none => simp [DBNNode.infer_properties_node, hm] at h
    | some m0 =>
      cases hv : o.inputs.INV_VARIANCE with
      | none => simp [DBNNode.infer_properties_node, hm, hv] at h
      | some v0 =>
        simp only [DBNNode.infer_properties_node, hm, hv, Option.bind_eq_bind,
          Option.some_bind, Option.some.injEq] at h
        subst h
        refine ⟨rfl, rfl,
          fun h => infer_copy_from_x_dim_frame _ _ h,
          fun h => infer_copy_from_x_stride_frame _ _ h,
          fun h => infer_copy_from_x_dim_frame _ _ h,
          fun h => infer_copy_from_x_stride_frame _ _ h,
          fun h => infer_per_channel_tensors_dim_frame _ _ h,
          fun h => infer_per_channel_tensors_stride_frame _ _ h,
          fun h => infer_per_channel_tensors_dim_frame _ _ h,
          fun h => infer_per_channel_tensors_stride_frame _ _ h,
          fun h => infer_per_channel_tensors_dim_frame _ _ h,
          fun h => infer_per_channel_tensors_stride_frame _ _ h,
          ?_, ?_⟩
        · intro m m2 hm2 hm3
          injection hm2 with hm2
          subst hm2
          injection hm3 with hm3
          subst hm3
          exact ⟨fun h => infer_per_channel_tensors_dim_frame _ _ h,
                 fun h => infer_per_channel_tensors_stride_frame _ _ h⟩
        · intro v v2 hv2 hv3
          injection hv2 with hv2
          subst hv2
          injection hv3 with hv3
          subst hv3
          exact ⟨fun h => infer_per_channel_tensors_dim_frame _ _ h,
                 fun h => infer_per_channel_tensors_stride_frame _ _ h⟩
  · intro o
    exact ⟨rfl, fun h => dgrad_dx_dim_frame _ h, fun h => dgrad_dx_stride_frame _ h⟩

/-- Concrete instantiation of `C3_infer_preserves_caller_shapes`: a batchnorm
node whose Y shape was supplied by the caller keeps it unchanged. -/
theorem C3_infer_preserves_caller_shapes_witness :
    (BatchNormNode.infer_properties_node
        { sampleBN with outputs := { sampleBN.outputs with
            Y := { id := 8, dim := [2, 3, 4, 5] } } }).outputs.Y.dim = [2, 3, 4, 5] :=
  (C3_infer_preserves_caller_shapes.1
    { sampleBN with outputs := { sampleBN.outputs with
        Y := { id := 8, dim := [2, 3, 4, 5] } } }).2.1 (by decide)

/-! ## Validation theorems -/

/-- Claim C5:  `DBNNode::validate_node` returns `ATTRIBUTE_NOT_SET` exactly when
MEAN, INV_VARIANCE and EPSILON are all three absent, and succeeds as soon as
any one of them is present.  The stage is embedded as a pure function of the
attributes returning only an `error_t` (the C++ member is `const`), so it
mutates no node state. -/
theorem C5_dbn_validate_iff :
    (∀ o : batchnorm_backward_attributes,
      (DBNNode.validate_node o).code = error_code_t.ATTRIBUTE_NOT_SET ↔
        (o.inputs.MEAN = none ∧ o.inputs.INV_VARIANCE = none ∧ o.inputs.EPSILON = none)) ∧
    (∀ o : batchnorm_backward_attributes,
      (DBNNode.validate_node o).code = error_code_t.OK ↔
        (o.inputs.MEAN.isSome ∨ o.inputs.INV_VARIANCE.isSome ∨ o.inputs.EPSILON.isSome)) := by
  constructor <;> intro o <;>
    cases hm : o.inputs.MEAN <;> cases hv : o.inputs.INV_VARIANCE <;>
      cases he : o.inputs.EPSILON <;>
        simp [DBNNode.validate_node, hm, hv, he, ok_error_t]

/-- Claim C8:  `BatchNormNode::validate_node` fails with `ATTRIBUTE_NOT_SET`
exactly when the forward phase is unset, `RngNode::validate_node` exactly when
the Y output descriptor is absent; both succeed otherwise.  Both stages are
embedded as pure functions of caller-supplied fields returning only an
`error_t` (the C++ members are `const`), so they mutate no state. -/
theorem C8_validate_batchnorm_and_rng :
    (∀ o : Batchnorm_attributes,
      ((BatchNormNode.validate_node o).code = error_code_t.ATTRIBUTE_NOT_SET ↔
        o.forward_phase = NormFwdPhase_t.NOT_SET) ∧
      ((BatchNormNode.validate_node o).code = error_code_t.OK ↔
        o.forward_phase ≠ NormFwdPhase_t.NOT_SET)) ∧
    (∀ o : Rng_attributes,
      ((RngNode.validate_node o).code = error_code_t.ATTRIBUTE_NOT_SET ↔
        o.outputs.Y = none) ∧
      ((RngNode.validate_node o).code = error_code_t.OK ↔ o.outputs.Y.isSome)) := by
  constructor
  · intro o
    cases h : o.forward_phase <;> simp [BatchNormNode.validate_node, h, ok_error_t]
  · intro o
    cases h : o.outputs.Y <;> simp [RngNode.validate_node, h, ok_error_t]

/-! ## Rng lowering theorem -/

/-- Claim C4:  `RngNode::createOperations`: with a Bernoulli distribution and
Seed present, exactly one operation is emitted, wired to the Seed and Offset
backend handles; with a Bernoulli distribution and Seed absent, exactly one
operation is emitted carrying the literal `get_seed().value()` and wiring no
Seed/Offset handles; with any other distribution nothing is emitted and the
stage still returns `{OK, ""}`. -/
theorem C4_rng_create_operations :
    (∀ (o : Rng_attributes) (tensors : Nat → Option Nat)
        (p : Float) (Seed Offset Y : Tensor_attributes) (yd sd od : Nat),
      o.distribution = RngDistribution_t.BERNOULLI →
      o.bernoulli_probability = some p →
      o.inputs.Seed = some Seed → o.inputs.Offset = some Offset →
      o.outputs.Y = some Y →
      tensors Y.uid = some yd → tensors Seed.uid = some sd →
      tensors Offset.uid = some od →
      RngNode.createOperations o tensors =
        some ([{ op := { yDesc := yd,
                         rngDesc := { distribution := o.distribution,
                                      bernoulli_probability := p },
                         seedWiring := RngSeedWiring.tensorHandles sd od },
                 uids_in_operation := uids_of_involved (RngNode.tensors_involved o) }],
              ok_error_t)) ∧
    (∀ (o : Rng_attributes) (tensors : Nat → Option Nat)
        (p : Float) (Y : Tensor_attributes) (yd : Nat) (s : Int),
      o.distribution = RngDistribution_t.BERNOULLI →
      o.bernoulli_probability = some p →
      o.inputs.Seed = none → o.outputs.Y = some Y → tensors Y.uid = some yd →
      o.seed = some s →
      RngNode.createOperations o tensors =
        some ([{ op := { yDesc := yd,
                         rngDesc := { distribution := o.distribution,
                                      bernoulli_probability := p },
                         seedWiring := RngSeedWiring.literalSeed s },
                 uids_in_operation := uids_of_involved (RngNode.tensors_involved o) }],
              ok_error_t)) ∧
    (∀ (o : Rng_attributes) (tensors : Nat → Option Nat),
      o.distribution ≠ RngDistribution_t.BERNOULLI →
      RngNode.createOperations o tensors = some ([], ok_error_t)) := by
  refine ⟨?_, ?_, ?_⟩
  · intro o tensors p Seed Offset Y yd sd od hdist hp hs ho hy hty hts hto
    simp [RngNode.createOperations, hdist, hp, hs, ho, hy, hty, hts, hto]
  · intro o tensors p Y yd s hdist hp hs hy hty hseed
    simp [RngNode.createOperations, hdist, hp, hs, hy, hty, hseed]
  · intro o tensors hdist
    simp [RngNode.createOperations, hdist]

/-- A sample Rng attributes record with a non-Bernoulli distribution. -/
def sampleRngNotSet : Rng_attributes :=
  { distribution := RngDistribution_t.NOT_SET,
    inputs := {}, outputs := { Y := some (sampleEmpty 23) } }

/-- Concrete instantiation of `C4_rng_create_operations`: a non-Bernoulli Rng
node emits no operation and still succeeds. -/
theorem C4_rng_create_operations_witness :
    RngNode.createOperations sampleRngNotSet (fun _ => none) = some ([], ok_error_t) :=
  C4_rng_create_operations.2.2 sampleRngNotSet (fun _ => none) (by decide)

/-! ## Identifier uniqueness theorem -/

/-- Claim C6:  Across an entire graph build — every node's `assign_uids` call,
in any driver order, each node contributing its fixed `set_uid` call order
such as `BatchNormNode.assign_uids_order` or `DgradNode.assign_uids_order` —
no two distinct tensor descriptors end up carrying the same identifier, and a
descriptor's identifier, once assigned, is never changed, also when the same
descriptor is referenced again by another node or role. -/
theorem C6_uid_uniqueness (nodes : List (List Nat)) (s0 : UidState)
    (hb : ∀ t u, s0.assigned t = some u → u < s0.next_uid)
    (hinj : ∀ t1 t2 u, s0.assigned t1 = some u → s0.assigned t2 = some u → t1 = t2) :
    (∀ t1 t2 u, (assign_uids_graph nodes s0).assigned t1 = some u →
      (assign_uids_graph nodes s0).assigned t2 = some u → t1 = t2) ∧
    (∀ t u, s0.assigned t = some u → (assign_uids_graph nodes s0).assigned t = some u) :=
  ⟨(assign_uids_graph_ok nodes s0 ⟨hb, hinj⟩).2,
   fun t u h => assign_uids_graph_keeps nodes s0 t u h⟩

/-- Sample Dgrad attributes for concrete instantiations. -/
def sampleDgrad : Conv_dgrad_attributes :=
  { padding := [0, 0], stride := [1, 1], dilation := [1, 1],
    inputs := { W := { id := 13, dim := [64, 32, 3, 3] },
                DY := { id := 14, dim := [2, 64, 8, 8] } },
    outputs := { DX := { id := 15 } } }

/-- Concrete instantiation of `C6_uid_uniqueness`: a two-node build (the
sample batchnorm node followed by the sample dgrad node) starting from a
fresh counter assigns injective identifiers and never reassigns one. -/
theorem C6_uid_uniqueness_witness :
    (∀ t1 t2 u,
      (assign_uids_graph
        [BatchNormNode.assign_uids_order sampleBN, DgradNode.assign_uids_order sampleDgrad]
        { next_uid := 0, assigned := fun _ => none }).assigned t1 = some u →
      (assign_uids_graph
        [BatchNormNode.assign_uids_order sampleBN, DgradNode.assign_uids_order sampleDgrad]
        { next_uid := 0, assigned := fun _ => none }).assigned t2 = some u → t1 = t2) ∧
    (∀ t u, (({ next_uid := 0, assigned := fun _ => none } : UidState)).assigned t = some u →
      (assign_uids_graph
        [BatchNormNode.assign_uids_order sampleBN, DgradNode.assign_uids_order sampleDgrad]
        { next_uid := 0, assigned := fun _ => none }).assigned t = some u) :=
  C6_uid_uniqueness
    [BatchNormNode.assign_uids_order sampleBN, DgradNode.assign_uids_order sampleDgrad]
    { next_uid := 0, assigned := fun _ => none }
    (fun t u h => by simp at h) (fun t1 t2 u h1 h2 => by simp at h1)

/-! ## Operation-record identifier filter theorem -/

theorem mem_uids_of_involved (inv : List (Option Tensor_attributes)) (u : Nat) :
    u ∈ uids_of_involved inv ↔
      ∃ t, some t ∈ inv ∧ t.is_virtual = false ∧ t.uid = u := by
  unfold uids_of_involved
  rw [List.mem_filterMap]
  constructor
  · rintro ⟨t, ht, hf⟩
    cases t with
    | none => simp at hf
    | some t =>
      by_cases hv : t.is_virtual = false
      · simp [hv] at hf
        exact ⟨t, ht, hv, hf⟩
      · simp [hv] at hf
  · rintro ⟨t, ht, hv, hu⟩
    exact ⟨some t, ht, by simp [hv, hu]⟩

theorem option_bind_some_elim {α β : Type} (x : Option α) (f : α → Option β) (b : β)
    (h : x >>= f = some b) : ∃ a, x = some a ∧ f a = some b := by
  cases x with
  | none => simp at h
  | some a => exact ⟨a, rfl, h⟩

/-- Claim C7:  The identifier list of every operation record appended by any
node kind's `createOperations` is exactly the filter of that operation's
involved-tensor list: it holds an identifier `u` precisely when some present,
non-virtual involved tensor carries `u`; consequently (as long as involved
tensors do not alias identifiers) the identifier of a virtual tensor never
appears, and an absent optional tensor contributes nothing. -/
theorem C7_operation_uid_filter :
    (∀ (inv : List (Option Tensor_attributes)) (u : Nat),
      u ∈ uids_of_involved inv ↔
        ∃ t, some t ∈ inv ∧ t.is_virtual = false ∧ t.uid = u) ∧
    (∀ (inv : List (Option Tensor_attributes)) (t : Tensor_attributes),
      some t ∈ inv → t.is_virtual = true →
      (∀ t2, some t2 ∈ inv → t2.uid = t.uid → t2.is_virtual = true) →
      t.uid ∉ uids_of_involved inv) ∧
    (∀ (o : Batchnorm_attributes) (tensors : Nat → Option Nat) res,
      BatchNormNode.createOperations o tensors = some res →
      ∀ r ∈ res.1, r.uids_in_operation = uids_of_involved (BatchNormNode.tensors_involved o)) ∧
    (∀ (o : batchnorm_backward_attributes) (tensors : Nat → Option Nat) res,
      DBNNode.createOperations o tensors = some res →
      ∀ r ∈ res.1, r.uids_in_operation = uids_of_involved (DBNNode.tensors_involved o)) ∧
    (∀ (o : Conv_dgrad_attributes) (tensors : Nat → Option Nat) res,
      DgradNode.createOperations o tensors = some res →
      ∀ r ∈ res.1, r.uids_in_operation = uids_of_involved (DgradNode.tensors_involved o)) ∧
    (∀ (o : Rng_attributes) (tensors : Nat → Option Nat) res,
      RngNode.createOperations o tensors = some res →
      ∀ r ∈ res.1, r.uids_in_operation = uids_of_involved (RngNode.tensors_involved o)) := by
  refine ⟨mem_uids_of_involved, ?_, ?_, ?_, ?_, ?_⟩
  · intro inv t ht hv hall hmem
    obtain ⟨t2, ht2, hnv, hu⟩ := (mem_uids_of_involved inv t.uid).1 hmem
    have := hall t2 ht2 hu
    rw [this] at hnv
    simp at hnv
  · intro o tensors res h r hr
    unfold BatchNormNode.createOperations at h
    obtain ⟨a1, -, h⟩ := option_bind_some_elim _ _ _ h
    obtain ⟨a2, -, h⟩ := option_bind_some_elim _ _ _ h
    obtain ⟨a3, -, h⟩ := option_bind_some_elim _ _ _ h
    obtain ⟨a4, -, h⟩ := option_bind_some_elim _ _ _ h
    obtain ⟨a5, -, h⟩ := option_bind_some_elim _ _ _ h
    obtain ⟨a6, -, h⟩ := option_bind_some_elim _ _ _ h
    obtain ⟨a7, -, h⟩ := option_bind_some_elim _ _ _ h
    obtain ⟨a8, -, h⟩ := option_bind_some_elim _ _ _ h
    obtain ⟨a9, -, h⟩ := option_bind_some_elim _ _ _ h
    obtain ⟨a10, -, h⟩ := option_bind_some_elim _ _ _ h
    obtain ⟨a11, -, h⟩ := option_bind_some_elim _ _ _ h
    obtain ⟨a12, -, h⟩ := option_bind_some_elim _ _ _ h
    injection h with h
    subst h
    simp only [List.mem_singleton] at hr
    subst hr
    rfl
  · intro o tensors res h r hr
    unfold DBNNode.createOperations at h
    obtain ⟨a1, -, h⟩ := option_bind_some_elim _ _ _ h
    obtain ⟨a2, -, h⟩ := option_bind_some_elim _ _ _ h
    obtain ⟨a3, -, h⟩ := option_bind_some_elim _ _ _ h
    obtain ⟨m, -, h⟩ := option_bind_some_elim _ _ _ h
    obtain ⟨a4, -, h⟩ := option_bind_some_elim _ _ _ h
    obtain ⟨v, -, h⟩ := option_bind_some_elim _ _ _ h
    obtain ⟨a5, -, h⟩ := option_bind_some_elim _ _ _ h
    obtain ⟨a6, -, h⟩ := option_bind_some_elim _ _ _ h
    obtain ⟨a7, -, h⟩ := option_bind_some_elim _ _ _ h
    obtain ⟨a8, -, h⟩ := option_bind_some_elim _ _ _ h
    injection h with h
    subst h
    simp only [List.mem_singleton] at hr
    subst hr
    rfl
  · intro o tensors res h r hr
    unfold DgradNode.createOperations at h
    obtain ⟨a1, -, h⟩ := option_bind_some_elim _ _ _ h
    obtain ⟨a2, -, h⟩ := option_bind_some_elim _ _ _ h
    obtain ⟨a3, -, h⟩ := option_bind_some_elim _ _ _ h
    injection h with h
    subst h
    simp only [List.mem_singleton] at hr
    subst hr
    rfl
  · intro o tensors res h r hr
    by_cases hdist : o.distribution = RngDistribution_t.BERNOULLI
    · cases hs : o.inputs.Seed with
      | some Seed =>
        simp only [RngNode.createOperations, hdist, if_true, hs, Option.bind_eq_bind,
          Option.bind_eq_some, Option.some.injEq] at h
        obtain ⟨p, -, Y, -, yd, -, sd, -, Off, -, od, -, hres⟩ := h
        subst hres
        simp only [List.mem_singleton] at hr
        subst hr
        rfl
      | none =>
        simp only [RngNode.createOperations, hdist, if_true, hs, Option.bind_eq_bind,
          Option.bind_eq_some, Option.some.injEq] at h
        obtain ⟨p, -, Y, -, yd, -, s, -, hres⟩ := h
        subst hres
        simp only [List.mem_singleton] at hr
        subst hr
        rfl
    · simp only [RngNode.createOperations, hdist, if_false] at h
      injection h with h
      subst h
      simp at hr

/-- A sample virtual tensor descriptor. -/
def sampleVirtualT : Tensor_attributes := { id := 30, is_virtual := true, uid := 100 }

/-- Concrete instantiation of `C7_operation_uid_filter`: a virtual tensor's
identifier is excluded from the filtered list. -/
theorem C7_operation_uid_filter_witness :
    sampleVirtualT.uid ∉ uids_of_involved [some sampleVirtualT, none] :=
  C7_operation_uid_filter.2.1 [some sampleVirtualT, none] sampleVirtualT (by simp) rfl
    (fun t2 h2 hu => by
      simp at h2
      subst h2
      rfl)

/-! ## Post-validation null-dereference theorems -/

/-- Claim C9:  Every post-validation DBN stage dereferences MEAN and
INV_VARIANCE with no null guard: a DBN node carrying only EPSILON (MEAN and
INV_VARIANCE absent) passes `validate_node` yet crashes (`none`) in the very
next stage `infer_properties_node`; and each of `infer_properties_node`,
`assign_uids_node`, `createTensors` and `createOperations` returns normally
only when MEAN and INV_VARIANCE are both non-null. -/
theorem C9_dbn_requires_mean_inv_variance :
    (∀ o : batchnorm_backward_attributes,
      o.inputs.MEAN = none → o.inputs.INV_VARIANCE = none → o.inputs.EPSILON.isSome →
      (DBNNode.validate_node o).code = error_code_t.OK ∧
      DBNNode.infer_properties_node o = none) ∧
    (∀ o : batchnorm_backward_attributes, (DBNNode.infer_properties_node o).isSome →
      o.inputs.MEAN.isSome ∧ o.inputs.INV_VARIANCE.isSome) ∧
    (∀ o : batchnorm_backward_attributes, (DBNNode.assign_uids_order o).isSome →
      o.inputs.MEAN.isSome ∧ o.inputs.INV_VARIANCE.isSome) ∧
    (∀ o : batchnorm_backward_attributes, (DBNNode.createTensors o).isSome →
      o.inputs.MEAN.isSome ∧ o.inputs.INV_VARIANCE.isSome) ∧
    (∀ (o : batchnorm_backward_attributes) (tensors : Nat → Option Nat),
      (DBNNode.createOperations o tensors).isSome →
      o.inputs.MEAN.isSome ∧ o.inputs.INV_VARIANCE.isSome) := by
  refine ⟨?_, ?_, ?_, ?_, ?_⟩
  · intro o hm hv he
    obtain ⟨e, he⟩ := Option.isSome_iff_exists.1 he
    constructor
    · simp [DBNNode.validate_node, hm, hv, he, ok_error_t]
    · simp [DBNNode.infer_properties_node, hm]
  · intro o h
    cases hm : o.inputs.MEAN with
    | none => simp [DBNNode.infer_properties_node, hm] at h
    | some m =>
      cases hv : o.inputs.INV_VARIANCE with
      | none => simp [DBNNode.infer_properties_node, hm, hv] at h
      | some v => simp
  · intro o h
    cases hm : o.inputs.MEAN with
    | none => simp [DBNNode.assign_uids_order, hm] at h
    | some m =>
      cases hv : o.inputs.INV_VARIANCE with
      | none => simp [DBNNode.assign_uids_order, hm, hv] at h
      | some v => simp
  · intro o h
    cases hm : o.inputs.MEAN with
    | none => simp [DBNNode.createTensors, create_cudnn_tensor, hm] at h
    | some m =>
      cases hv : o.inputs.INV_VARIANCE with
      | none => simp [DBNNode.createTensors, create_cudnn_tensor, hm, hv] at h
      | some v => simp
  · intro o tensors h
    cases hm : o.inputs.MEAN with
    | none => simp [DBNNode.createOperations, hm] at h
    | some m =>
      cases hv : o.inputs.INV_VARIANCE with
      | none => simp [DBNNode.createOperations, hm, hv] at h
      | some v => simp

/-- Sample DBN attributes with only EPSILON present among the three optional
inputs. -/
def sampleDBNEpsOnly : batchnorm_backward_attributes :=
  { inputs := { X := sampleX, DY := sampleEmpty 16, SCALE := sampleEmpty 17,
                MEAN := none, INV_VARIANCE := none, EPSILON := some (sampleEmpty 18) },
    outputs := { DX := sampleEmpty 19, DSCALE := sampleEmpty 20, DBIAS := sampleEmpty 21 } }

/-- Concrete instantiation of `C9_dbn_requires_mean_inv_variance` at
`sampleDBNEpsOnly`: validation succeeds, inference crashes. -/
theorem C9_dbn_requires_mean_inv_variance_witness :
    (DBNNode.validate_node sampleDBNEpsOnly).code = error_code_t.OK ∧
    DBNNode.infer_properties_node sampleDBNEpsOnly = none :=
  C9_dbn_requires_mean_inv_variance.1 sampleDBNEpsOnly rfl rfl rfl

theorem rng_offset_none_crashes (o : Rng_attributes) (tensors : Nat → Option Nat)
    (Seed : Tensor_attributes) (hdist : o.distribution = RngDistribution_t.BERNOULLI)
    (hs : o.inputs.Seed = some Seed) (hoff : o.inputs.Offset = none) :
    RngNode.createOperations o tensors = none := by
  cases hp : o.bernoulli_probability with
  | none => simp [RngNode.createOperations, hdist, hp]
  | some p =>
    cases hy : o.outputs.Y with
    | none => simp [RngNode.createOperations, hdist, hp, hs, hy]
    | some Y =>
      cases hty : tensors Y.uid with
      | none => simp [RngNode.createOperations, hdist, hp, hs, hy, hty]
      | some yd =>
        cases hts : tensors Seed.uid with
        | none => simp [RngNode.createOperations, hdist, hp, hs, hy, hty, hts]
        | some sd => simp [RngNode.createOperations, hdist, hp, hs, hy, hty, hts, hoff]

/-- Claim C10:  In `RngNode::createOperations`, the Bernoulli-with-Seed branch
dereferences the Offset descriptor (and looks up its identifier in the
uid→handle map) with no null guard: with Seed present and Offset absent the
stage crashes (`none`) rather than returning an error, even though
`validate_node` admits that configuration (it only checks Y); hence the
dynamic-seeding path returns normally only when Offset is also non-null. -/
theorem C10_rng_offset_dereference :
    (∀ (o : Rng_attributes) (tensors : Nat → Option Nat) (Seed : Tensor_attributes),
      o.distribution = RngDistribution_t.BERNOULLI →
      o.inputs.Seed = some Seed → o.inputs.Offset = none →
      RngNode.createOperations o tensors = none) ∧
    (∀ (o : Rng_attributes) (tensors : Nat → Option Nat) res,
      o.distribution = RngDistribution_t.BERNOULLI → o.inputs.Seed.isSome →
      RngNode.createOperations o tensors = some res →
      o.inputs.Offset.isSome) ∧
    (∀ o : Rng_attributes, o.outputs.Y.isSome →
      (RngNode.validate_node o).code = error_code_t.OK) := by
  refine ⟨?_, ?_, ?_⟩
  · intro o tensors Seed hdist hs hoff
    exact rng_offset_none_crashes o tensors Seed hdist hs hoff
  · intro o tensors res hdist hseed h
    obtain ⟨Seed, hs⟩ := Option.isSome_iff_exists.1 hseed
    cases hoff : o.inputs.Offset with
    | some Off => simp
    | none =>
      rw [rng_offset_none_crashes o tensors Seed hdist hs hoff] at h
      exact absurd h (by simp)
  · intro o hy
    obtain ⟨Y, hy⟩ := Option.isSome_iff_exists.1 hy
    simp [RngNode.validate_node, hy, ok_error_t]

/-- Sample Rng attributes: Bernoulli distribution, Seed present, Offset
absent. -/
def sampleRngSeedNoOffset : Rng_attributes :=
  { distribution := RngDistribution_t.BERNOULLI,
    bernoulli_probability := some 0.5,
    seed := none,
    inputs := { Seed := some (sampleEmpty 24), Offset := none },
    outputs := { Y := some (sampleEmpty 25) } }

/-- Concrete instantiation of `C10_rng_offset_dereference` at
`sampleRngSeedNoOffset`: lowering crashes. -/
theorem C10_rng_offset_dereference_witness :
    RngNode.createOperations sampleRngSeedNoOffset (fun u => some u) = none :=
  C10_rng_offset_dereference.1 sampleRngSeedNoOffset (fun u => some u)
    (sampleEmpty 24) rfl rfl rfl
